import Mathlib

/-!
Verification of the job-scheduling and change-notification subsystem of the
BukaAmanzi backend (`src/backend/app`), as described by its natural-language
specification.  The Python source is shallowly embedded:

* Python values that flow through the change detector are modelled by `PyVal`
  (`None`, booleans, arbitrary-precision integers, strings, and `datetime`
  objects, the value types that actually reach `calculate_content_hash` /
  `diff_dicts`); Python `dict`s are insertion-ordered association lists.
* `json.dumps(..., sort_keys=True, default=str)` is modelled character by
  character (`normalizeChars`), including CPython's `ensure_ascii` string
  escaping, the `", "` / `": "` separators, and the `default=str` fallback
  that serialises a `datetime` as its `str()` form.
* `hashlib.sha256(...).hexdigest()` is implemented concretely over the UTF-8
  bytes of the normalised string (the theorems below only ever use it
  congruently; no collision assumption is made either way).
* the `asyncio.PriorityQueue` used by `ETLManager` is modelled by CPython's
  `heapq` algorithm (`heappush` / `heappop` with `_siftdown` / `_siftup`),
  with Python tuple comparison made explicit: comparing two `(priority, job)`
  entries with equal priorities compares the `ETLJob` objects, which define
  no ordering, so the comparison raises `TypeError`.  Fallible operations
  return `Except PyErr`.
* `ETLManager`'s bookkeeping (`active_jobs`, `completed_jobs`, the queue) and
  `DataChangeNotifier`'s connection/subscription tables are explicit state
  records; CPython's "dictionary changed size during iteration" RuntimeError
  is modelled where `notify_system_event` / `notify_system_error` mutate
  `active_connections` while iterating it.  Logging, Redis publication and
  websocket payload contents are elided as external effects; delivery
  failure of an individual websocket `send_text` is a parameter (`sendFails`)
  of the scenario.
-/

namespace BukaAmanzi

/-- Python exception kinds that the embedded code can raise. -/
inductive PyErr where
  | typeError
  | runtimeError
  | keyError
  | indexError
deriving DecidableEq, Repr

/-- A `datetime.datetime` value (as stored in the records that are hashed). -/
structure DateTimeV where
  year : Nat
  month : Nat
  day : Nat
  hour : Nat
  minute : Nat
  second : Nat
  micro : Nat
deriving DecidableEq, Repr

/-- Python values flowing through the change detector. -/
inductive PyVal where
  | vnone
  | vbool (b : Bool)
  | vint (n : Int)
  | vstr (s : String)
  | vdt (d : DateTimeV)
deriving DecidableEq, Repr

/-- A Python `dict` with string keys: an insertion-ordered association list.
Python guarantees the keys are pairwise distinct; theorems that need this
take a `Nodup` hypothesis on the key list. -/
abbrev PyDict := List (String × PyVal)

/-- First-match association-list lookup (`d[k]` / `k in d` semantics). -/
def alookup {α : Type} : List (String × α) → String → Option α
  | [], _ => Option.none
  | p :: r, k => if p.1 = k then some p.2 else alookup r k

/-- Python `dict.get(k)`: the stored value, or `None` when the key is absent. -/
def pyGet (d : PyDict) (k : String) : PyVal :=
  (alookup d k).getD PyVal.vnone

/-- Python `dict[k] = v`: replace the value at an existing key in place,
otherwise append the new binding at the end (insertion order). -/
def dinsert {α : Type} (l : List (String × α)) (k : String) (v : α) :
    List (String × α) :=
  if (l.map Prod.fst).contains k then
    l.map (fun p => if p.1 = k then (k, v) else p)
  else
    l ++ [(k, v)]

/-- Python `del d[k]` / `d.pop(k, None)`. -/
def dremove {α : Type} (l : List (String × α)) (k : String) :
    List (String × α) :=
  l.filter (fun p => decide (p.1 ≠ k))

/-- The key set `new.keys() | old.keys()` of `diff_dicts` (Python iterates it
in an arbitrary hash order; only membership matters to the claims, so a
canonical order is used). -/
def unionKeys (old new : PyDict) : List String :=
  ((new.map Prod.fst) ++ (old.map Prod.fst)).dedup

/-- `change_detection.diff_dicts`: returns `(changed_fields, old_values)`;
a key is emitted exactly when `old.get(key) != new.get(key)`, the change map
holding `new.get(key)` and the old-value map `old.get(key)`. -/
def diff_dicts (old new : PyDict) : PyDict × PyDict :=
  let ks := (unionKeys old new).filter (fun k => decide (pyGet old k ≠ pyGet new k))
  (ks.map (fun k => (k, pyGet new k)), ks.map (fun k => (k, pyGet old k)))

lemma alookup_map_fn {f : String → PyVal} (ks : List String) (k : String) :
    alookup (ks.map (fun k' => (k', f k'))) k =
      if k ∈ ks then some (f k) else Option.none := by
  induction ks with
  | nil => rfl
  | cons a r ih =>
      by_cases h : a = k
      · subst h
        simp [alookup]
      · simp [alookup, h, Ne.symm h, ih]

lemma alookup_eq_none_of_not_mem {α : Type} {l : List (String × α)} {k : String}
    (h : k ∉ l.map Prod.fst) : alookup l k = Option.none := by
  induction l with
  | nil => rfl
  | cons p r ih =>
      simp only [List.map_cons, List.mem_cons] at h
      push_neg at h
      simp [alookup, Ne.symm h.1, ih h.2]

lemma mem_unionKeys_of_pyGet_ne {old new : PyDict} {k : String}
    (h : pyGet old k ≠ pyGet new k) : k ∈ unionKeys old new := by
  by_contra hk
  unfold unionKeys at hk
  rw [List.mem_dedup, List.mem_append] at hk
  push_neg at hk
  have h1 : alookup old k = Option.none := alookup_eq_none_of_not_mem hk.2
  have h2 : alookup new k = Option.none := alookup_eq_none_of_not_mem hk.1
  exact h (by simp [pyGet, h1, h2])

/-- Claim C5 (amended): `diff_dicts` marks as changed exactly the keys `k`
with `old.get(k) != new.get(k)`, where a missing key reads as `None`; for such
keys the change map holds `new.get(k)` and the old-value map `old.get(k)`, and
every key whose two `get`-values agree is absent from both outputs.  (The
original claim's "present in one dict but missing from the other" is not
equivalent: a key stored with value `None` on one side and missing on the
other compares equal under `get` and is omitted — see the counterexample.) -/
theorem diff_dicts_spec (old new : PyDict) (k : String) :
    alookup (diff_dicts old new).1 k =
      (if pyGet old k ≠ pyGet new k then some (pyGet new k) else Option.none) ∧
    alookup (diff_dicts old new).2 k =
      (if pyGet old k ≠ pyGet new k then some (pyGet old k) else Option.none) := by
  have hmem : ∀ h : pyGet old k ≠ pyGet new k,
      k ∈ (unionKeys old new).filter
        (fun k' => decide (pyGet old k' ≠ pyGet new k')) := by
    intro h
    rw [List.mem_filter]
    exact ⟨mem_unionKeys_of_pyGet_ne h, by simpa using h⟩
  have hnmem : ¬ pyGet old k ≠ pyGet new k →
      k ∉ (unionKeys old new).filter
        (fun k' => decide (pyGet old k' ≠ pyGet new k')) := by
    intro h hk
    rw [List.mem_filter] at hk
    exact h (by simpa using hk.2)
  constructor
  · rw [show (diff_dicts old new).1 =
          ((unionKeys old new).filter
            (fun k' => decide (pyGet old k' ≠ pyGet new k'))).map
            (fun k' => (k', pyGet new k')) from rfl, alookup_map_fn]
    by_cases h : pyGet old k ≠ pyGet new k
    · simp [h, hmem h, mem_unionKeys_of_pyGet_ne h]
    · simp [h, hnmem h]
  · rw [show (diff_dicts old new).2 =
          ((unionKeys old new).filter
            (fun k' => decide (pyGet old k' ≠ pyGet new k'))).map
            (fun k' => (k', pyGet old k')) from rfl, alookup_map_fn]
    by_cases h : pyGet old k ≠ pyGet new k
    · simp [h, hmem h, mem_unionKeys_of_pyGet_ne h]
    · simp [h, hnmem h]

/-- Claim C5, counterexample to the claim as stated: for
`old = {"a": None}` and `new = {}`, the key `"a"` is present in `old` and
missing from `new` (the two dicts differ at `"a"` at the key level), yet
`diff_dicts` emits nothing at all, because `old.get("a")` and `new.get("a")`
are both `None`. -/
theorem diff_dicts_claim_counterexample :
    alookup ([("a", PyVal.vnone)] : PyDict) "a" ≠
      alookup ([] : PyDict) "a" ∧
    diff_dicts [("a", PyVal.vnone)] [] = ([], []) := by
  constructor
  · decide
  · rfl

/-! ### `json.dumps(data, sort_keys=True, default=str)` -/

/-- Decimal digit character (for `str(datetime)` zero-padded fields). -/
def digitChar (n : Nat) : Char := Char.ofNat (48 + n % 10)

/-- Two-digit zero-padded decimal. -/
def pad2 (n : Nat) : List Char := [digitChar (n / 10), digitChar n]

/-- Four-digit zero-padded decimal. -/
def pad4 (n : Nat) : List Char :=
  [digitChar (n / 1000), digitChar (n / 100), digitChar (n / 10), digitChar n]

/-- Six-digit zero-padded decimal. -/
def pad6 (n : Nat) : List Char :=
  [digitChar (n / 100000), digitChar (n / 10000), digitChar (n / 1000),
   digitChar (n / 100), digitChar (n / 10), digitChar n]

/-- Python `str(datetime)`: `YYYY-MM-DD HH:MM:SS[.ffffff]`, the microsecond
suffix present only when nonzero.  This is what `default=str` feeds back to
the JSON encoder for a `datetime` value. -/
def strOfDateTime (d : DateTimeV) : String :=
  ⟨pad4 d.year ++ '-' :: pad2 d.month ++ '-' :: pad2 d.day ++
   ' ' :: pad2 d.hour ++ ':' :: pad2 d.minute ++ ':' :: pad2 d.second ++
   (if d.micro = 0 then [] else '.' :: pad6 d.micro)⟩

/-- Lowercase hexadecimal digit character. -/
def hexCharLower (n : Nat) : Char :=
  if n < 10 then Char.ofNat (48 + n) else Char.ofNat (87 + n)

/-- A single `\uXXXX` escape. -/
def uEscape4 (n : Nat) : List Char :=
  ['\\', 'u', hexCharLower (n / 4096 % 16), hexCharLower (n / 256 % 16),
   hexCharLower (n / 16 % 16), hexCharLower (n % 16)]

/-- CPython `ensure_ascii` escape of a non-ASCII code point (with surrogate
pairs above the BMP). -/
def uEscape (n : Nat) : List Char :=
  if n < 0x10000 then uEscape4 n
  else uEscape4 (0xd800 + (n - 0x10000) / 1024) ++
       uEscape4 (0xdc00 + (n - 0x10000) % 1024)

/-- CPython JSON string escaping (`ensure_ascii=True`, the default used by
`json.dumps` in `calculate_content_hash`). -/
def escapeChar (c : Char) : List Char :=
  if c = '"' then ['\\', '"']
  else if c = '\\' then ['\\', '\\']
  else if c = '\x08' then ['\\', 'b']
  else if c = '\x0c' then ['\\', 'f']
  else if c = '\n' then ['\\', 'n']
  else if c = '\r' then ['\\', 'r']
  else if c = '\t' then ['\\', 't']
  else if 0x20 ≤ c.toNat ∧ c.toNat ≤ 0x7e then [c]
  else uEscape c.toNat

/-- JSON serialisation of a Python string: quoted and escaped. -/
def dumpStr (s : String) : List Char :=
  '"' :: (s.data.map escapeChar).flatten ++ ['"']

/-- JSON serialisation of one value under `default=str`: `None`, booleans and
ints use their JSON forms, strings are quoted/escaped, and a `datetime`
(not JSON-serialisable) is replaced by `str(datetime)` and serialised as that
string — the `default=str` fallback of `calculate_content_hash`. -/
def dumpVal : PyVal → List Char
  | PyVal.vnone => "null".data
  | PyVal.vbool true => "true".data
  | PyVal.vbool false => "false".data
  | PyVal.vint n => (toString n).data
  | PyVal.vstr s => dumpStr s
  | PyVal.vdt d => dumpStr (strOfDateTime d)

/-- Key order used by `sort_keys=True`: compare the key strings. -/
def keyLe (p q : String × PyVal) : Prop := p.1 ≤ q.1

/-- Strict key order (used to show sorted key-distinct lists are unique). -/
def keyLt (p q : String × PyVal) : Prop := p.1 < q.1

instance : DecidableRel keyLe := fun p q => inferInstanceAs (Decidable (p.1 ≤ q.1))

instance : IsTotal (String × PyVal) keyLe := ⟨fun a b => le_total a.1 b.1⟩

instance : IsTrans (String × PyVal) keyLe := ⟨fun _ _ _ h1 h2 => le_trans h1 h2⟩

instance : IsAntisymm (String × PyVal) keyLt :=
  ⟨fun _ _ h1 h2 => absurd (lt_trans h1 h2) (lt_irrefl _)⟩

/-- The pairs of the dict sorted by key (`sort_keys=True`). -/
def sortPairs (d : PyDict) : PyDict := List.insertionSort keyLe d

/-- One `"key": value` segment of the serialised object (`": "` separator). -/
def seg (p : String × PyVal) : List Char := dumpStr p.1 ++ ": ".data ++ dumpVal p.2

/-- Join segments with the `", "` item separator of `json.dumps`. -/
def joinSep : List (List Char) → List Char
  | [] => []
  | [x] => x
  | x :: y :: r => x ++ ", ".data ++ joinSep (y :: r)

/-- Serialise an already-ordered pair list as a JSON object literal. -/
def renderPairs (l : PyDict) : List Char :=
  '\x7b' :: joinSep (l.map seg) ++ ['\x7d']

/-- The full normalised serialisation
`json.dumps(data, sort_keys=True, default=str)`, as a character list. -/
def normalizeChars (d : PyDict) : List Char :=
  renderPairs (sortPairs d)

/-! ### `normalized.encode()` (UTF-8) and `hashlib.sha256(...).hexdigest()` -/

/-- UTF-8 encoding of one code point (bytes as `Nat`s). -/
def utf8Char (c : Char) : List Nat :=
  let n := c.toNat
  if n < 0x80 then [n]
  else if n < 0x800 then [0xc0 + n / 64, 0x80 + n % 64]
  else if n < 0x10000 then
    [0xe0 + n / 4096, 0x80 + (n / 64) % 64, 0x80 + n % 64]
  else
    [0xf0 + n / 262144, 0x80 + (n / 4096) % 64, 0x80 + (n / 64) % 64,
     0x80 + n % 64]

/-- UTF-8 encoding of a character list. -/
def utf8Bytes (l : List Char) : List Nat := (l.map utf8Char).flatten

/-- 32-bit right rotation on a `Nat` below `2^32`. -/
def rotr32 (n x : Nat) : Nat := (x / 2 ^ n + (x % 2 ^ n) * 2 ^ (32 - n)) % 2 ^ 32

/-- The SHA-256 round constants (fractional parts of the cube roots of the
first 64 primes, here as decimal 32-bit words). -/
def sha256K : List Nat :=
  [1116352408, 1899447441, 3049323471, 3921009573, 961987163,
   1508970993, 2453635748, 2870763221, 3624381080, 310598401,
   607225278, 1426881987, 1925078388, 2162078206, 2614888103,
   3248222580, 3835390401, 4022224774, 264347078, 604807628,
   770255983, 1249150122, 1555081692, 1996064986, 2554220882,
   2821834349, 2952996808, 3210313671, 3336571891, 3584528711,
   113926993, 338241895, 666307205, 773529912, 1294757372,
   1396182291, 1695183700, 1986661051, 2177026350, 2456956037,
   2730485921, 2820302411, 3259730800, 3345764771, 3516065817,
   3600352804, 4094571909, 275423344, 430227734, 506948616,
   659060556, 883997877, 958139571, 1322822218, 1537002063,
   1747873779, 1955562222, 2024104815, 2227730452, 2361852424,
   2428436474, 2756734187, 3204031479, 3329325298]

/-- The SHA-256 initial hash state (fractional parts of the square roots of
the first 8 primes, as decimal 32-bit words). -/
def sha256H0 : List Nat :=
  [1779033703, 3144134277, 1013904242, 2773480762,
   1359893119, 2600822924, 528734635, 1541459225]

/-- Big-endian byte decomposition of a `Nat` into `n` bytes. -/
def bytesBE : Nat → Nat → List Nat
  | 0, _ => []
  | n + 1, v => bytesBE n (v / 256) ++ [v % 256]

/-- SHA-256 message padding: `0x80`, zeros, then the 64-bit bit length. -/
def sha256Pad (msg : List Nat) : List Nat :=
  msg ++ 0x80 :: List.replicate ((119 - msg.length % 64) % 64) 0 ++
    bytesBE 8 (8 * msg.length)

/-- Group padded bytes into 32-bit big-endian words. -/
def toWords : List Nat → List Nat
  | b1 :: b2 :: b3 :: b4 :: r => (((b1 * 256 + b2) * 256 + b3) * 256 + b4) :: toWords r
  | _ => []

/-- Group the word stream into 16-word blocks. -/
def toBlocks : List Nat → List (List Nat)
  | [] => []
  | w :: r => ((w :: r).take 16) :: toBlocks ((w :: r).drop 16)
termination_by l => l.length
decreasing_by
  simp only [List.length_drop, List.length_cons]
  omega

/-- Extend a 16-word block to the 64-word message schedule. -/
def sha256Schedule (ws : List Nat) : Array Nat :=
  (List.range 48).foldl
    (fun w _ =>
      let i := w.size
      let w15 := w.getD (i - 15) 0
      let w2 := w.getD (i - 2) 0
      let s0 := rotr32 7 w15 ^^^ rotr32 18 w15 ^^^ (w15 / 2 ^ 3)
      let s1 := rotr32 17 w2 ^^^ rotr32 19 w2 ^^^ (w2 / 2 ^ 10)
      w.push ((w.getD (i - 16) 0 + s0 + w.getD (i - 7) 0 + s1) % 2 ^ 32))
    ws.toArray

/-- One SHA-256 compression round. -/
def sha256Round (st : List Nat) (k w : Nat) : List Nat :=
  match st with
  | [a, b, c, d, e, f, g, h] =>
    let s1 := rotr32 6 e ^^^ (rotr32 11 e ^^^ rotr32 25 e)
    let ch := g ^^^ (e &&& (f ^^^ g))
    let temp1 := (h + s1 + ch + k + w) % 2 ^ 32
    let s0 := rotr32 2 a ^^^ (rotr32 13 a ^^^ rotr32 22 a)
    let maj := (a &&& b) ||| (c &&& (a ||| b))
    let temp2 := (s0 + maj) % 2 ^ 32
    [(temp1 + temp2) % 2 ^ 32, a, b, c, (d + temp1) % 2 ^ 32, e, f, g]
  | st => st

/-- Process one 512-bit block into the running hash state. -/
def sha256Block (st : List Nat) (block : List Nat) : List Nat :=
  let w := sha256Schedule block
  let out := (List.range 64).foldl
    (fun s i => sha256Round s (sha256K.getD i 0) (w.getD i 0)) st
  (st.zip out).map (fun p => (p.1 + p.2) % 2 ^ 32)

/-- SHA-256 of a byte list, producing the 32 digest bytes. -/
def sha256 (msg : List Nat) : List Nat :=
  ((toBlocks (toWords (sha256Pad msg))).foldl sha256Block sha256H0).map
    (bytesBE 4) |>.flatten

/-- Lowercase hex rendering of a digest (`.hexdigest()`). -/
def toHex (bs : List Nat) : String :=
  ⟨(bs.map (fun b => [hexCharLower (b / 16), hexCharLower (b % 16)])).flatten⟩

/-- `change_detection.calculate_content_hash`: SHA-256 hex digest of the
UTF-8 bytes of `json.dumps(data, sort_keys=True, default=str)`. -/
def calculate_content_hash (d : PyDict) : String :=
  toHex (sha256 (utf8Bytes (normalizeChars d)))

/-- Claim C6, counterexample to the claim as stated: the two records
`{"updated_at": datetime(2024, 1, 1)}` and
`{"updated_at": "2024-01-01 00:00:00"}` differ in the value of their single
field, yet fingerprint identically: `default=str` serialises the datetime
exactly as its string form, so the hashed bytes coincide. -/
theorem fingerprint_claim_counterexample :
    ([("updated_at", PyVal.vdt ⟨2024, 1, 1, 0, 0, 0, 0⟩)] : PyDict) ≠
      [("updated_at", PyVal.vstr "2024-01-01 00:00:00")] ∧
    calculate_content_hash [("updated_at", PyVal.vdt ⟨2024, 1, 1, 0, 0, 0, 0⟩)] =
      calculate_content_hash [("updated_at", PyVal.vstr "2024-01-01 00:00:00")] := by
  constructor
  · decide
  · exact congrArg (fun l => toHex (sha256 (utf8Bytes l)))
      (by decide :
        normalizeChars [("updated_at", PyVal.vdt ⟨2024, 1, 1, 0, 0, 0, 0⟩)] =
          normalizeChars [("updated_at", PyVal.vstr "2024-01-01 00:00:00")])

/-! ### Fingerprint stability and sensitivity (claim C6) -/

lemma sorted_keyLe_sortPairs (d : PyDict) : List.Sorted keyLe (sortPairs d) :=
  List.sorted_insertionSort keyLe d

lemma perm_sortPairs (d : PyDict) : List.Perm (sortPairs d) d :=
  List.perm_insertionSort keyLe d

lemma nodup_keys_sortPairs {d : PyDict} (h : (d.map Prod.fst).Nodup) :
    ((sortPairs d).map Prod.fst).Nodup :=
  (((perm_sortPairs d).map Prod.fst).nodup_iff).mpr h

lemma sorted_keyLt_sortPairs {d : PyDict} (h : (d.map Prod.fst).Nodup) :
    List.Sorted keyLt (sortPairs d) := by
  have hle : List.Pairwise keyLe (sortPairs d) := sorted_keyLe_sortPairs d
  have hne : List.Pairwise (fun p q : String × PyVal => p.1 ≠ q.1) (sortPairs d) :=
    (List.pairwise_map.mp (nodup_keys_sortPairs h))
  exact (hle.and hne).imp (fun hpq => lt_of_le_of_ne hpq.1 hpq.2)

lemma sortPairs_eq_of_perm {d1 d2 : PyDict} (h : (d1.map Prod.fst).Nodup)
    (hp : List.Perm d1 d2) : sortPairs d1 = sortPairs d2 := by
  have h2 : (d2.map Prod.fst).Nodup := ((hp.map Prod.fst).nodup_iff).mp h
  exact List.eq_of_perm_of_sorted
    (((perm_sortPairs d1).trans hp).trans (perm_sortPairs d2).symm)
    (sorted_keyLt_sortPairs h) (sorted_keyLt_sortPairs h2)

lemma orderedInsert_map (g : String × PyVal → String × PyVal)
    (hg : ∀ p, (g p).1 = p.1) (a : String × PyVal) (l : PyDict) :
    List.orderedInsert keyLe (g a) (l.map g) =
      (List.orderedInsert keyLe a l).map g := by
  induction l with
  | nil => rfl
  | cons b t ih =>
      have hiff : keyLe (g a) (g b) ↔ keyLe a b := by
        unfold keyLe
        rw [hg a, hg b]
      by_cases h : keyLe a b
      · simp only [List.map_cons, List.orderedInsert, if_pos h, if_pos (hiff.mpr h),
          List.map_cons]
      · simp only [List.map_cons, List.orderedInsert, if_neg h,
          if_neg (fun hc => h (hiff.mp hc)), List.map_cons, ih]

lemma insertionSort_map (g : String × PyVal → String × PyVal)
    (hg : ∀ p, (g p).1 = p.1) (l : PyDict) :
    List.insertionSort keyLe (l.map g) = (List.insertionSort keyLe l).map g := by
  induction l with
  | nil => rfl
  | cons a t ih =>
      simp only [List.map_cons, List.insertionSort, ih]
      exact orderedInsert_map g hg a (List.insertionSort keyLe t)

lemma joinSep_cons (x : List Char) {r : List (List Char)} (h : r ≠ []) :
    joinSep (x :: r) = x ++ ", ".data ++ joinSep r := by
  cases r with
  | nil => exact absurd rfl h
  | cons y ys => rfl

lemma joinSep_mid (X : List (List Char)) (m1 m2 : List Char)
    (Y : List (List Char)) :
    (joinSep (X ++ m1 :: Y) = joinSep (X ++ m2 :: Y)) ↔ m1 = m2 := by
  induction X with
  | nil =>
      cases Y with
      | nil => simp [joinSep]
      | cons y ys =>
          simp only [List.nil_append]
          rw [joinSep_cons m1 (by simp), joinSep_cons m2 (by simp)]
          rw [List.append_assoc m1, List.append_assoc m2]
          exact ⟨fun h => List.append_cancel_right h, fun h => by rw [h]⟩
  | cons x X' ih =>
      have hne : ∀ m : List Char, X' ++ m :: Y ≠ [] := by
        intro m h
        cases X' <;> simp_all
      simp only [List.cons_append]
      rw [joinSep_cons x (hne m1), joinSep_cons x (hne m2)]
      exact ⟨fun h => ih.mp (List.append_cancel_left h), fun h => by rw [h]⟩

lemma seg_eq_iff (k : String) (v w : PyVal) :
    (seg (k, w) = seg (k, v)) ↔ dumpVal w = dumpVal v := by
  unfold seg
  exact ⟨fun h => List.append_cancel_left h, fun h => by rw [h]⟩

lemma renderPairs_eq_iff (l1 l2 : PyDict) :
    (renderPairs l1 = renderPairs l2) ↔
      joinSep (l1.map seg) = joinSep (l2.map seg) := by
  unfold renderPairs
  exact ⟨fun h => List.append_cancel_right (List.cons.inj h).2, fun h => by rw [h]⟩

lemma notMem_keys_parts {A B : PyDict} {k : String} {v : PyVal}
    (h : ((A ++ (k, v) :: B).map Prod.fst).Nodup) :
    k ∉ A.map Prod.fst ∧ k ∉ B.map Prod.fst := by
  rw [List.map_append, List.map_cons, List.nodup_append] at h
  obtain ⟨-, hkB, hdisj⟩ := h
  rw [List.nodup_cons] at hkB
  exact ⟨fun hk => hdisj hk (List.mem_cons_self _ _), hkB.1⟩

/-- Claim C6 (amended): the fingerprint is invariant under any permutation of
a record's (distinct) keys; and mutating the value of one field changes the
normalised serialisation that is hashed — hence the fingerprint input — if
and only if the new value's JSON serialisation (after the `default=str`
coercion) differs from the old one's.  In particular a `datetime` and its
`str()` form serialise identically, so such a single-field mutation leaves
the fingerprint unchanged (see the counterexample); and since the digest is
SHA-256, distinct hash inputs can only be claimed distinct up to hash
collisions, so sensitivity is stated on the hash input. -/
theorem fingerprint_spec :
    (∀ d1 d2 : PyDict, (d1.map Prod.fst).Nodup → List.Perm d1 d2 →
       calculate_content_hash d1 = calculate_content_hash d2) ∧
    (∀ (a b : PyDict) (k : String) (v w : PyVal),
       ((a ++ (k, v) :: b).map Prod.fst).Nodup →
       ((normalizeChars (a ++ (k, w) :: b) = normalizeChars (a ++ (k, v) :: b)) ↔
         dumpVal w = dumpVal v)) := by
  constructor
  · intro d1 d2 h hp
    unfold calculate_content_hash normalizeChars
    rw [sortPairs_eq_of_perm h hp]
  · intro a b k v w h
    set g : String × PyVal → String × PyVal :=
      fun p => if p.1 = k then (p.1, w) else p with hgdef
    have hg : ∀ p, (g p).1 = p.1 := by
      intro p
      by_cases hp : p.1 = k <;> simp [hgdef, hp]
    obtain ⟨hka, hkb⟩ := notMem_keys_parts h
    have hmap : (a ++ (k, v) :: b).map g = a ++ (k, w) :: b := by
      rw [List.map_append, List.map_cons]
      have ha : a.map g = a := by
        conv_rhs => rw [show a = a.map id from (List.map_id a).symm]
        refine List.map_congr_left ?_
        intro p hp
        have : p.1 ≠ k := fun hc => hka (hc ▸ List.mem_map_of_mem Prod.fst hp)
        simp [hgdef, this]
      have hb : b.map g = b := by
        conv_rhs => rw [show b = b.map id from (List.map_id b).symm]
        refine List.map_congr_left ?_
        intro p hp
        have : p.1 ≠ k := fun hc => hkb (hc ▸ List.mem_map_of_mem Prod.fst hp)
        simp [hgdef, this]
      rw [ha, hb]
      simp [hgdef]
    have hsort2 : sortPairs (a ++ (k, w) :: b) = (sortPairs (a ++ (k, v) :: b)).map g := by
      rw [← hmap]
      exact insertionSort_map g hg _
    have hmem : (k, v) ∈ sortPairs (a ++ (k, v) :: b) := by
      rw [(perm_sortPairs _).mem_iff]
      exact List.mem_append_right a (List.mem_cons_self _ _)
    obtain ⟨A, B, hAB⟩ := List.append_of_mem hmem
    have hnodupS : ((sortPairs (a ++ (k, v) :: b)).map Prod.fst).Nodup :=
      nodup_keys_sortPairs h
    rw [hAB] at hnodupS
    obtain ⟨hkA, hkB⟩ := notMem_keys_parts hnodupS
    have hsort2' : sortPairs (a ++ (k, w) :: b) = A ++ (k, w) :: B := by
      rw [hsort2, hAB, List.map_append, List.map_cons]
      have hA : A.map g = A := by
        conv_rhs => rw [show A = A.map id from (List.map_id A).symm]
        refine List.map_congr_left ?_
        intro p hp
        have : p.1 ≠ k := fun hc => hkA (hc ▸ List.mem_map_of_mem Prod.fst hp)
        simp [hgdef, this]
      have hB : B.map g = B := by
        conv_rhs => rw [show B = B.map id from (List.map_id B).symm]
        refine List.map_congr_left ?_
        intro p hp
        have : p.1 ≠ k := fun hc => hkB (hc ▸ List.mem_map_of_mem Prod.fst hp)
        simp [hgdef, this]
      rw [hA, hB]
      simp [hgdef]
    unfold normalizeChars
    rw [hsort2', hAB, renderPairs_eq_iff, List.map_append, List.map_cons,
        List.map_append, List.map_cons, joinSep_mid]
    exact seg_eq_iff k v w

/-- Claim C6, witness: the amended theorem applied to concrete records — the
fingerprint of `{"a": 1, "b": 2}` is unchanged when the two keys are listed
in the other order, and mutating `"a"` from `1` to `3` changes the
normalised serialisation exactly because `3` and `1` serialise differently. -/
theorem fingerprint_spec_witness :
    calculate_content_hash [("a", PyVal.vint 1), ("b", PyVal.vint 2)] =
      calculate_content_hash [("b", PyVal.vint 2), ("a", PyVal.vint 1)] ∧
    ((normalizeChars [("a", PyVal.vint 3)] = normalizeChars [("a", PyVal.vint 1)]) ↔
      dumpVal (PyVal.vint 3) = dumpVal (PyVal.vint 1)) :=
  ⟨fingerprint_spec.1 [("a", PyVal.vint 1), ("b", PyVal.vint 2)]
      [("b", PyVal.vint 2), ("a", PyVal.vint 1)] (by decide)
      (List.Perm.swap ("b", PyVal.vint 2) ("a", PyVal.vint 1) []),
   fingerprint_spec.2 [] [] "a" (PyVal.vint 1) (PyVal.vint 3) (by decide)⟩

/-! ### Totality of the change detector (claim C7)

The Python-level exception behaviour is made explicit: `json.dumps` raises
`TypeError` on a value it cannot serialise unless the `default` fallback
rescues it (`calculate_content_hash` passes `default=str`, which succeeds on
every value), `dict.get` never raises (unlike `d[k]`, which raises
`KeyError`), and the `|` key-set union is total. -/

/-- `json.dumps` serialisation of a single value: without a `default`
fallback a non-JSON type (here `datetime`) raises `TypeError`; with
`default=str` it is serialised as its `str()` form. -/
def jsonDumpsVal (useDefaultStr : Bool) : PyVal → Except PyErr (List Char)
  | PyVal.vdt d =>
      if useDefaultStr then Except.ok (dumpStr (strOfDateTime d))
      else Except.error PyErr.typeError
  | v => Except.ok (dumpVal v)

/-- Serialise the sorted pairs one by one, propagating any `TypeError`. -/
def dumpSegs (useDefaultStr : Bool) : PyDict → Except PyErr (List (List Char))
  | [] => Except.ok []
  | p :: r => do
      let v ← jsonDumpsVal useDefaultStr p.2
      let rest ← dumpSegs useDefaultStr r
      pure ((dumpStr p.1 ++ ": ".data ++ v) :: rest)

/-- `json.dumps(data, sort_keys=True)` with the raising path modelled. -/
def jsonDumpsDict (useDefaultStr : Bool) (d : PyDict) : Except PyErr (List Char) := do
  let segs ← dumpSegs useDefaultStr (sortPairs d)
  pure ('\x7b' :: joinSep segs ++ ['\x7d'])

/-- Python `d[k]`: raises `KeyError` on a missing key (the diff deliberately
uses `d.get(k)` instead, which is total). -/
def dictItemExc (d : PyDict) (k : String) : Except PyErr PyVal :=
  match alookup d k with
  | some v => Except.ok v
  | Option.none => Except.error PyErr.keyError

/-- The loop body of `diff_dicts` with Python exception semantics:
`old.get(key)` / `new.get(key)` are total, so no step can raise. -/
def diffLoop (old new : PyDict) : List String → Except PyErr (PyDict × PyDict)
  | [] => Except.ok ([], [])
  | k :: r => do
      let ov := pyGet old k
      let nv := pyGet new k
      let (ch, olds) ← diffLoop old new r
      if ov ≠ nv then pure ((k, nv) :: ch, (k, ov) :: olds)
      else pure (ch, olds)

/-- `diff_dicts` in the exception-aware embedding. -/
def diffChecked (old new : PyDict) : Except PyErr (PyDict × PyDict) :=
  diffLoop old new (unionKeys old new)

lemma jsonDumpsVal_true (v : PyVal) :
    jsonDumpsVal true v = Except.ok (dumpVal v) := by
  cases v <;> rfl

lemma dumpSegs_true : ∀ l : PyDict, dumpSegs true l = Except.ok (l.map seg)
  | [] => rfl
  | p :: r => by
      simp only [dumpSegs, jsonDumpsVal_true, dumpSegs_true r, seg]
      rfl

lemma diffLoop_ok (old new : PyDict) : ∀ ks : List String,
    diffLoop old new ks =
      Except.ok
        ((ks.filter (fun k => decide (pyGet old k ≠ pyGet new k))).map
           (fun k => (k, pyGet new k)),
         (ks.filter (fun k => decide (pyGet old k ≠ pyGet new k))).map
           (fun k => (k, pyGet old k)))
  | [] => rfl
  | k :: r => by
      by_cases h : pyGet old k ≠ pyGet new k <;>
        simp [diffLoop, diffLoop_ok old new r, h, List.filter_cons]

/-- Claim C7: `Fingerprint` and `Diff` are total on arbitrary dict inputs —
the `default=str` fallback makes `json.dumps` succeed on every value
(without it, the modelled serialiser raises `TypeError` on a `datetime`),
so `calculate_content_hash` always returns a digest of the normalised
serialisation; and the diff, which reads keys only through the total
`dict.get`, always returns the `diff_dicts` result, never an exception.
Both are pure state-free functions of their inputs. -/
theorem change_detector_total :
    (∀ d : PyDict, jsonDumpsDict true d = Except.ok (normalizeChars d)) ∧
    (∀ old new : PyDict, diffChecked old new = Except.ok (diff_dicts old new)) := by
  constructor
  · intro d
    simp [jsonDumpsDict, dumpSegs_true, normalizeChars, renderPairs]
  · intro old new
    simp [diffChecked, diffLoop_ok, diff_dicts]

/-! ### ETLManager: priority queue, job bookkeeping (claims C1-C4)

`ETLManager` keeps an `asyncio.PriorityQueue` of `(priority, job)` tuples
plus two dicts, `active_jobs` and `completed_jobs`.  `asyncio.PriorityQueue`
is a binary heap driven by CPython's `heapq` (`heappush`/`heappop` with
`_siftdown`/`_siftup`), embedded below verbatim.  Python tuple comparison is
explicit: two entries first compare priorities; on a tie the `ETLJob`
objects are compared, and since `ETLJob` defines no ordering this raises
`TypeError` (distinct job objects also compare unequal under default object
equality).  Timestamps are abstract `Nat` instants passed in by the caller;
`uuid4()` is modelled by passing the fresh job id explicitly; notifications
and logging are elided external effects. -/

def PENDING : String := "pending"

def RUNNING : String := "running"

def SUCCESS : String := "success"

def FAILED : String := "failed"

def CANCELLED : String := "cancelled"

/-- `ETLJob`: the per-job record tracked by the manager. -/
structure Job where
  job_id : String
  job_type : String
  source : String
  parameters : PyDict
  priority : Int
  status : String
  created_at : Nat
  started_at : Option Nat
  completed_at : Option Nat
  error_message : Option String
  progress_percentage : Nat
  retry_count : Nat
  max_retries : Nat
deriving DecidableEq, Repr, Inhabited

/-- `ETLJob.__init__`: a fresh job is `pending`, unstarted, with retry count
0 and retry limit 3. -/
def mkETLJob (job_id job_type source : String) (parameters : PyDict)
    (priority : Int) (now : Nat) : Job :=
  { job_id := job_id, job_type := job_type, source := source,
    parameters := parameters, priority := priority, status := PENDING,
    created_at := now, started_at := Option.none, completed_at := Option.none,
    error_message := Option.none, progress_percentage := 0,
    retry_count := 0, max_retries := 3 }

/-- Python comparison of two `(priority, job)` tuples: unequal priorities
decide; equal priorities fall through to the `ETLJob` objects, which define
no ordering, raising `TypeError` (the same object compares equal, making the
tuples equal, so `<` is `False`). -/
def entryLt (e1 e2 : Int × Job) : Except PyErr Bool :=
  if e1.1 ≠ e2.1 then Except.ok (decide (e1.1 < e2.1))
  else if e1.2 = e2.2 then Except.ok false
  else Except.error PyErr.typeError

/-- The `while pos > startpos` loop of `heapq._siftdown`.  The loop variable
`pos` strictly decreases (`parentpos = (pos - 1) // 2 < pos`), so the loop
runs at most `pos` times; `fuel` is an upper bound on the remaining
iterations supplied by `siftdown` (never exhausted), making the recursion
structural so that concrete runs reduce definitionally. -/
def siftdownLoop (fuel : Nat) (heap : List (Int × Job)) (startpos pos : Nat)
    (newitem : Int × Job) : Except PyErr (List (Int × Job) × Nat) :=
  match fuel with
  | 0 => Except.ok (heap, pos)
  | fuel + 1 =>
      if startpos < pos then
        let parentpos := (pos - 1) / 2
        let parent := heap.getD parentpos default
        match entryLt newitem parent with
        | Except.error e => Except.error e
        | Except.ok true =>
            siftdownLoop fuel (heap.set pos parent) startpos parentpos newitem
        | Except.ok false => Except.ok (heap, pos)
      else Except.ok (heap, pos)

/-- `heapq._siftdown(heap, startpos, pos)`. -/
def siftdown (heap : List (Int × Job)) (startpos pos : Nat) :
    Except PyErr (List (Int × Job)) :=
  let newitem := heap.getD pos default
  match siftdownLoop (pos + 1) heap startpos pos newitem with
  | Except.error e => Except.error e
  | Except.ok (h, p) => Except.ok (h.set p newitem)

/-- The `while childpos < endpos` loop of `heapq._siftup`.  `childpos`
strictly increases and the loop stops once it reaches `endpos`, so `endpos`
iterations always suffice; `fuel` is that bound (never exhausted). -/
def siftupLoop (fuel : Nat) (heap : List (Int × Job))
    (endpos startpos pos childpos : Nat) (newitem : Int × Job) :
    Except PyErr (List (Int × Job) × Nat) :=
  match fuel with
  | 0 => Except.ok (heap, pos)
  | fuel + 1 =>
      if childpos < endpos then
        if childpos + 1 < endpos then
          match entryLt (heap.getD childpos default) (heap.getD (childpos + 1) default) with
          | Except.error e => Except.error e
          | Except.ok true =>
              siftupLoop fuel (heap.set pos (heap.getD childpos default)) endpos
                startpos childpos (2 * childpos + 1) newitem
          | Except.ok false =>
              siftupLoop fuel (heap.set pos (heap.getD (childpos + 1) default)) endpos
                startpos (childpos + 1) (2 * (childpos + 1) + 1) newitem
        else
          siftupLoop fuel (heap.set pos (heap.getD childpos default)) endpos
            startpos childpos (2 * childpos + 1) newitem
      else Except.ok (heap, pos)

/-- `heapq._siftup(heap, pos)`: move the hole down, place the item, then
restore upwards with `_siftdown`. -/
def siftup (heap : List (Int × Job)) (pos : Nat) :
    Except PyErr (List (Int × Job)) :=
  let newitem := heap.getD pos default
  match siftupLoop (heap.length + 1) heap heap.length pos pos (2 * pos + 1) newitem with
  | Except.error e => Except.error e
  | Except.ok (h, p) => siftdown (h.set p newitem) pos p

/-- `heapq.heappush` (what `asyncio.PriorityQueue.put_nowait` runs). -/
def heappush (heap : List (Int × Job)) (item : Int × Job) :
    Except PyErr (List (Int × Job)) :=
  siftdown (heap ++ [item]) 0 heap.length

/-- `heapq.heappop` (what `asyncio.PriorityQueue.get` runs once an item is
available): pop the last element, and if the heap is nonempty move it to the
root and sift up. -/
def heappop (heap : List (Int × Job)) :
    Except PyErr ((Int × Job) × List (Int × Job)) :=
  match heap.getLast? with
  | Option.none => Except.error PyErr.indexError
  | some lastelt =>
      match heap.dropLast with
      | [] => Except.ok (lastelt, [])
      | r0 :: rr =>
          match siftup (lastelt :: rr) 0 with
          | Except.error e => Except.error e
          | Except.ok h => Except.ok (r0, h)

/-- The `ETLManager` bookkeeping state: the priority-queue heap,
`active_jobs`, and `completed_jobs`. -/
structure MState where
  heap : List (Int × Job)
  active : List (String × Job)
  completed : List (String × Job)
deriving DecidableEq, Repr, Inhabited

/-- A freshly constructed manager. -/
def emptyMState : MState := ⟨[], [], []⟩

/-- `ETLManager.submit_job`: build the job and `put` `(priority, job)` on
the queue; the job id is returned.  Nothing is recorded in `active_jobs` or
`completed_jobs`. -/
def submit_job (st : MState) (job_id job_type source : String)
    (parameters : PyDict) (priority : Int) (now : Nat) :
    Except PyErr (String × MState) :=
  let job := mkETLJob job_id job_type source parameters priority now
  match heappush st.heap (priority, job) with
  | Except.error e => Except.error e
  | Except.ok h => Except.ok (job_id, { st with heap := h })

/-- `ETLManager.get_job_status`: look in `active_jobs`, then
`completed_jobs`, else `None` (the returned dict view is derived from the
job record, so the record itself is returned here). -/
def get_job_status (st : MState) (job_id : String) : Option Job :=
  match alookup st.active job_id with
  | some j => some j
  | Option.none => alookup st.completed job_id

/-- The cancelled copy of a job (`status = cancelled`, completion stamped). -/
def cancelledJob (j : Job) (now : Nat) : Job :=
  { j with status := CANCELLED, completed_at := some now }

/-- `ETLManager.cancel_job`: only ids present in `active_jobs` are
cancellable; the job is marked cancelled and moved to `completed_jobs`. -/
def cancel_job (st : MState) (job_id : String) (now : Nat) : Bool × MState :=
  match alookup st.active job_id with
  | some job =>
      (true, { st with active := dremove st.active job_id,
                       completed := dinsert st.completed job_id (cancelledJob job now) })
  | Option.none => (false, st)

/-- The in-place reset `retry_job` applies to the failed job record. -/
def retryReset (j : Job) : Job :=
  { j with status := PENDING, retry_count := j.retry_count + 1,
           started_at := Option.none, completed_at := Option.none,
           error_message := Option.none, progress_percentage := 0 }

/-- `ETLManager.retry_job`: for a `completed_jobs` entry that is `failed`
and under its retry limit, reset the same record to pending, re-`put` it on
the queue, and delete it from `completed_jobs`; otherwise return `False`. -/
def retry_job (st : MState) (job_id : String) : Except PyErr (Bool × MState) :=
  match alookup st.completed job_id with
  | some job =>
      if job.status = FAILED ∧ job.retry_count < job.max_retries then
        match heappush st.heap (job.priority, retryReset job) with
        | Except.error e => Except.error e
        | Except.ok h =>
            Except.ok (true, { st with heap := h,
                                       completed := dremove st.completed job_id })
      else Except.ok (false, st)
  | Option.none => Except.ok (false, st)

lemma alookup_dremove {α : Type} (l : List (String × α)) (k : String) :
    alookup (dremove l k) k = Option.none := by
  induction l with
  | nil => rfl
  | cons p r ih =>
      by_cases h : p.1 = k
      · simpa [dremove, h] using ih
      · simpa [dremove, h, alookup] using ih

/-- Claim C1: submitting jobs with priorities 5, 1, 5 to the pool and then
letting the (single) worker pull from the queue does not execute the
priority-1 job first and the priority-5 jobs in submission order — the very
first `get` (a `heappop`) has to compare the two priority-5 entries, which
compares the `ETLJob` objects and raises `TypeError`.  The priority queue
therefore cannot deliver the claimed tie-break-by-submission-order at all;
this contradicts the evident intent (the queue is built to order jobs by
priority) and is the classic missing-tie-breaker slip. -/
theorem priority_tie_raises_typeerror :
    (submit_job emptyMState "A" "dws_sync" "dws" [] 5 0 >>= fun r1 =>
     submit_job r1.2 "B" "dws_sync" "dws" [] 1 1 >>= fun r2 =>
     submit_job r2.2 "C" "dws_sync" "dws" [] 5 2 >>= fun r3 =>
     heappop r3.2.heap) = Except.error PyErr.typeError := by
  rfl

/-- Claim C2 (amended): `get_job_status` answers with a job view exactly when
the id is in `active_jobs` or `completed_jobs`; and `submit_job` leaves
`get_job_status` unchanged for every id — a submitted job only enters the
queue, so it is reported not-found until a worker picks it up. -/
theorem get_job_status_spec :
    (∀ (st : MState) (jid : String),
       (get_job_status st jid).isSome ↔
         ((alookup st.active jid).isSome ∨ (alookup st.completed jid).isSome)) ∧
    (∀ (st : MState) (jid jt src : String) (params : PyDict) (pr : Int)
       (now : Nat) (jid' : String) (st' : MState),
       submit_job st jid jt src params pr now = Except.ok (jid', st') →
       ∀ q, get_job_status st' q = get_job_status st q) := by
  constructor
  · intro st jid
    unfold get_job_status
    cases h : alookup st.active jid <;> simp [h]
  · intro st jid jt src params pr now jid' st' h q
    simp only [submit_job] at h
    cases hh : heappush st.heap (pr, mkETLJob jid jt src params pr now) with
    | error e =>
        rw [hh] at h
        simp at h
    | ok hp =>
        rw [hh] at h
        simp only [Except.ok.injEq, Prod.mk.injEq] at h
        rw [← h.2]
        rfl

/-- Claim C2, witness: the amended theorem applied to a concrete submission
on a fresh manager (the resulting state holds the job only on the heap). -/
theorem get_job_status_spec_witness :
    get_job_status ⟨[(5, mkETLJob "j1" "dws_sync" "dws" [] 5 0)], [], []⟩ "j1" =
      get_job_status emptyMState "j1" :=
  get_job_status_spec.2 emptyMState "j1" "dws_sync" "dws" [] 5 0 "j1"
    ⟨[(5, mkETLJob "j1" "dws_sync" "dws" [] 5 0)], [], []⟩ (by rfl) "j1"

/-- Claim C2, counterexample to the claim as stated: `submit_job` on a fresh
manager returns the id `"j1"` of a job whose status is `pending`, yet
`get_job_status` on the resulting state answers not-found for `"j1"`. -/
theorem submit_invisible_counterexample :
    submit_job emptyMState "j1" "dws_sync" "dws" [] 5 0 =
      Except.ok ("j1", ⟨[(5, mkETLJob "j1" "dws_sync" "dws" [] 5 0)], [], []⟩) ∧
    (mkETLJob "j1" "dws_sync" "dws" [] 5 0).status = PENDING ∧
    get_job_status ⟨[(5, mkETLJob "j1" "dws_sync" "dws" [] 5 0)], [], []⟩ "j1" =
      Option.none :=
  ⟨rfl, rfl, rfl⟩

/-- Claim C3 (amended): `retry_job` succeeds exactly on `completed_jobs`
entries that are `failed` with `retry_count < max_retries`; on success the
*same* record is reset to pending with incremented retry count, re-enqueued,
and *deleted* from the completed history (the original failed record does
not remain — history is mutated, not copied).  The success equation is
stated modulo the queue `put` (whose `heappush` can itself raise `TypeError`
on a priority tie, in which case the error propagates). -/
theorem retry_job_spec (st : MState) (jid : String) :
    (alookup st.completed jid = Option.none →
       retry_job st jid = Except.ok (false, st)) ∧
    (∀ j, alookup st.completed jid = some j →
       (¬(j.status = FAILED ∧ j.retry_count < j.max_retries) →
          retry_job st jid = Except.ok (false, st)) ∧
       ((j.status = FAILED ∧ j.retry_count < j.max_retries) →
          ∀ h, heappush st.heap (j.priority, retryReset j) = Except.ok h →
            retry_job st jid =
              Except.ok (true, ⟨h, st.active, dremove st.completed jid⟩) ∧
            alookup (dremove st.completed jid) jid = Option.none)) := by
  constructor
  · intro h
    simp [retry_job, h]
  · intro j hj
    constructor
    · intro hcond
      simp [retry_job, hj, hcond]
    · intro hcond h hpush
      refine ⟨?_, alookup_dremove st.completed jid⟩
      simp [retry_job, hj, hcond.1, hcond.2, hpush]

/-- A failed job record as it sits in `completed_jobs` (used to exercise the
retry path on concrete states). -/
def sampleFailedJob : Job :=
  { mkETLJob "j1" "dws_sync" "dws" [] 5 0 with
      status := FAILED, error_message := some "boom" }

/-- Claim C3, witness: the amended theorem applied to a concrete manager
whose completed history holds one failed job under its retry limit. -/
theorem retry_job_spec_witness :
    retry_job ⟨[], [], [("j1", sampleFailedJob)]⟩ "j1" =
      Except.ok (true, ⟨[(5, retryReset sampleFailedJob)], [],
        dremove [("j1", sampleFailedJob)] "j1"⟩) ∧
    alookup (dremove ([("j1", sampleFailedJob)] : List (String × Job)) "j1") "j1" =
      Option.none :=
  ((retry_job_spec ⟨[], [], [("j1", sampleFailedJob)]⟩ "j1").2 sampleFailedJob
    (by rfl)).2 (by decide) [(5, retryReset sampleFailedJob)] (by rfl)

/-- Claim C3, counterexample to the claim as stated: retrying the failed job
`"j1"` returns `True`, but afterwards the completed history is empty — the
original failed record did not "remain unchanged in the job history"; it was
reset in place (status back to `pending`, error cleared) and re-enqueued
under the same id. -/
theorem retry_mutates_history_counterexample :
    retry_job ⟨[], [], [("j1", sampleFailedJob)]⟩ "j1" =
      Except.ok (true, ⟨[(5, retryReset sampleFailedJob)], [], []⟩) ∧
    (retryReset sampleFailedJob).job_id = sampleFailedJob.job_id ∧
    (retryReset sampleFailedJob).status = PENDING ∧
    (retryReset sampleFailedJob).retry_count = 1 :=
  ⟨rfl, rfl, rfl, rfl⟩

/-- Claim C4 (amended): `cancel_job` returns `True` exactly for ids in
`active_jobs` (jobs a worker has picked up); such a job is marked cancelled
and moved to `completed_jobs`.  Everything else — including a submitted job
still waiting in the queue, which is precisely a `pending` job — returns
`False` and leaves the state untouched. -/
theorem cancel_job_spec (st : MState) (jid : String) (now : Nat) :
    ((cancel_job st jid now).1 = true ↔ (alookup st.active jid).isSome) ∧
    (∀ j, alookup st.active jid = some j →
       cancel_job st jid now =
         (true, ⟨st.heap, dremove st.active jid,
                 dinsert st.completed jid (cancelledJob j now)⟩)) ∧
    (alookup st.active jid = Option.none → cancel_job st jid now = (false, st)) := by
  refine ⟨?_, ?_, ?_⟩
  · unfold cancel_job
    cases h : alookup st.active jid <;> simp [h]
  · intro j h
    simp [cancel_job, h]
  · intro h
    simp [cancel_job, h]

/-- A running job record as it sits in `active_jobs`. -/
def sampleRunningJob : Job :=
  { mkETLJob "j2" "treasury_sync" "treasury" [] 5 0 with
      status := RUNNING, started_at := some 3 }

/-- Claim C4, witness: the amended theorem applied to a concrete manager
with one active (running) job, which cancel moves to the completed map. -/
theorem cancel_job_spec_witness :
    cancel_job ⟨[], [("j2", sampleRunningJob)], []⟩ "j2" 7 =
      (true, ⟨[], dremove [("j2", sampleRunningJob)] "j2",
              dinsert [] "j2" (cancelledJob sampleRunningJob 7)⟩) :=
  (cancel_job_spec ⟨[], [("j2", sampleRunningJob)], []⟩ "j2" 7).2.1
    sampleRunningJob (by rfl)

/-- Claim C4, counterexample to the claim as stated: a freshly submitted job
is `pending`, but `cancel_job` returns `False` for it (it lives only on the
queue, and `cancel_job` consults `active_jobs` alone). -/
theorem cancel_pending_counterexample :
    submit_job emptyMState "j1" "dws_sync" "dws" [] 5 0 =
      Except.ok ("j1", ⟨[(5, mkETLJob "j1" "dws_sync" "dws" [] 5 0)], [], []⟩) ∧
    (mkETLJob "j1" "dws_sync" "dws" [] 5 0).status = PENDING ∧
    cancel_job ⟨[(5, mkETLJob "j1" "dws_sync" "dws" [] 5 0)], [], []⟩ "j1" 1 =
      (false, ⟨[(5, mkETLJob "j1" "dws_sync" "dws" [] 5 0)], [], []⟩) :=
  ⟨rfl, rfl, rfl⟩

/-! ### DataChangeNotifier (claims C8, C9)

`DataChangeNotifier` keeps two dicts keyed by connection id:
`active_connections` (id → websocket) and `subscriptions` (id → set of
subscription keys).  Websocket handles and payload contents are abstracted
away; whether `send_text` to a given connection raises is a scenario
parameter `sendFails`.  Redis publication is an elided best-effort external
effect (recorded as the channel name where the source publishes).
CPython raises `RuntimeError: dictionary changed size during iteration`
when a dict's size changes between `next()` calls of a live iterator; this
matters for `notify_system_event` / `notify_system_error`, whose loop bodies
call `disconnect` (which pops from `active_connections`) while iterating
`active_connections` itself. -/

/-- The notifier's connection/subscription state (dict key lists in
insertion order; subscription sets as duplicate-free lists). -/
structure NState where
  active_connections : List String
  subscriptions : List (String × List String)
deriving DecidableEq, Repr, Inhabited

/-- `DataChangeNotifier.connect`: register the websocket and an empty
subscription set (`accept` and the Redis bookkeeping are external). -/
def connect (st : NState) (cid : String) : NState :=
  { active_connections :=
      if st.active_connections.contains cid then st.active_connections
      else st.active_connections ++ [cid],
    subscriptions := dinsert st.subscriptions cid [] }

/-- `DataChangeNotifier.disconnect`: pop the connection from both dicts
(idempotent). -/
def disconnect (st : NState) (cid : String) : NState :=
  { active_connections := st.active_connections.filter (fun c => decide (c ≠ cid)),
    subscriptions := dremove st.subscriptions cid }

/-- Python `set.add` on a subscription set. -/
def setAdd (l : List String) (x : String) : List String :=
  if l.contains x then l else l ++ [x]

/-- Add a subscription key to one connection's set. -/
def addSub (subs : List (String × List String)) (cid x : String) :
    List (String × List String) :=
  subs.map (fun p => if p.1 = cid then (p.1, setAdd p.2 x) else p)

/-- `DataChangeNotifier.subscribe_to_entity`: `"all"` subscribes to
everything; otherwise an `entity_type:entity_id` key is added when an id is
given; unknown connections are ignored. -/
def subscribe_to_entity (st : NState) (cid entity_type : String)
    (entity_id : Option String) : NState :=
  if (st.subscriptions.map Prod.fst).contains cid then
    if entity_type = "all" then
      { st with subscriptions := addSub st.subscriptions cid "all" }
    else
      match entity_id with
      | some i =>
          { st with subscriptions := addSub st.subscriptions cid (entity_type ++ ":" ++ i) }
      | Option.none => st
  else st

/-- The entity fields of a change event (`change.get(...)` semantics:
a missing entity type defaults to `"project"`, a missing id renders as the
f-string `"None"`). -/
structure ChangeEvent where
  entity_type : Option String
  entity_id : Option String
deriving DecidableEq, Repr

/-- The `f"{entity_type}:{entity_id}"` subscription key of an event. -/
def entityKey (c : ChangeEvent) : String :=
  (c.entity_type.getD "project") ++ ":" ++
    (match c.entity_id with
     | some s => s
     | Option.none => "None")

/-- The `for connection_id, subscriptions in self.subscriptions.items()`
loop of `broadcast_to_subscribers`: collect `(delivered, disconnected)` in
iteration order; a failed `send_text` records the connection for cleanup and
the loop continues. -/
def broadcastLoop (sendFails : List String) (st : NState) (key : String) :
    List (String × List String) → List String × List String
  | [] => ([], [])
  | p :: rest =>
      let tail := broadcastLoop sendFails st key rest
      if key ∈ p.2 ∨ "all" ∈ p.2 then
        if st.active_connections.contains p.1 then
          if sendFails.contains p.1 then (tail.1, p.1 :: tail.2)
          else (p.1 :: tail.1, tail.2)
        else tail
      else tail

/-- `DataChangeNotifier.broadcast_to_subscribers`: deliver to every matching
connected subscriber, then disconnect the ones whose send failed.  Returns
the cleaned-up state and the connection ids successfully delivered to. -/
def broadcast_to_subscribers (sendFails : List String) (st : NState)
    (change : ChangeEvent) : NState × List String :=
  let r := broadcastLoop sendFails st (entityKey change) st.subscriptions
  (r.2.foldl disconnect st, r.1)

/-- `DataChangeNotifier.notify_change`: publish on the broker channel
`project_changes` (external best-effort effect, second component), then
fan out locally (third component lists the delivered connections). -/
def notify_change (sendFails : List String) (st : NState) (change : ChangeEvent) :
    NState × List String × List String :=
  let r := broadcast_to_subscribers sendFails st change
  (r.1, ["project_changes"], r.2)

/-- The subscriber population of the spec's fan-out scenario: S1 subscribed
to `all`, S2 to `project:P1`, S3 to `project:P2`. -/
def fanoutScenario : NState :=
  subscribe_to_entity
    (subscribe_to_entity
      (subscribe_to_entity (connect (connect (connect ⟨[], []⟩ "S1") "S2") "S3")
        "S1" "all" Option.none)
      "S2" "project" (some "P1"))
    "S3" "project" (some "P2")

/-- Claim C8: a `notify_change` event for `project:P1` is delivered to
exactly S1 (subscribed to `all`) and S2 (subscribed to `project:P1`) and not
to S3 (subscribed to `project:P2`); and when delivery to S1 fails, S2 still
receives the event — the failed connection is merely recorded and
disconnected after the loop, so one dead socket cannot block the fan-out. -/
theorem fanout_completeness_isolation :
    (notify_change [] fanoutScenario ⟨some "project", some "P1"⟩).2.2 =
      ["S1", "S2"] ∧
    (notify_change ["S1"] fanoutScenario ⟨some "project", some "P1"⟩).2.2 =
      ["S2"] ∧
    (notify_change ["S1"] fanoutScenario ⟨some "project", some "P1"⟩).1 =
      ⟨["S2", "S3"], [("S2", ["project:P1"]), ("S3", ["project:P2"])]⟩ := by
  refine ⟨rfl, rfl, rfl⟩

/-- The `for connection_id, websocket in self.active_connections.items()`
loop shared by `notify_system_event` and `notify_system_error`, with
CPython's iterator-invalidation check: each `next()` (including the final
one) first compares the dict's current size with its size at iterator
creation and raises `RuntimeError` if they differ.  A failed send runs
`await self.disconnect(connection_id)` *inside* the loop, which pops from
`active_connections` and trips that check. -/
def sysLoop (sendFails : List String) (size0 : Nat) :
    List String → NState → List String → NState × List String × Option PyErr
  | [], st, delivered =>
      if st.active_connections.length ≠ size0 then
        (st, delivered, some PyErr.runtimeError)
      else (st, delivered, Option.none)
  | c :: rest, st, delivered =>
      if st.active_connections.length ≠ size0 then
        (st, delivered, some PyErr.runtimeError)
      else if sendFails.contains c then
        sysLoop sendFails size0 rest (disconnect st c) delivered
      else sysLoop sendFails size0 rest st (delivered ++ [c])

/-- `DataChangeNotifier.notify_system_event` (the Redis publish that
precedes the loop is an elided external effect): broadcast to every
connection; returns the final state, the connections actually delivered to,
and the exception (if any) propagating out of the loop. -/
def notify_system_event (sendFails : List String) (st : NState) :
    NState × List String × Option PyErr :=
  sysLoop sendFails st.active_connections.length st.active_connections st []

/-- `DataChangeNotifier.notify_system_error`: identical loop (the two
functions differ only in the payload they send). -/
def notify_system_error (sendFails : List String) (st : NState) :
    NState × List String × Option PyErr :=
  sysLoop sendFails st.active_connections.length st.active_connections st []

/-- Claim C9: with two connected clients `c1, c2` (in that order) and a dead
`c1` socket, `notify_system_event` delivers to *nobody*: the failed send
disconnects `c1` mid-iteration, the dict iterator's next step raises
`RuntimeError` ("dictionary changed size during iteration"), `c2` never
receives the event, and the exception propagates to the caller.  The same
holds for `notify_system_error`.  (When no send fails, both deliver to every
connection — third conjunct — so the failure case is what breaks the
claim.) -/
theorem system_broadcast_not_isolated :
    notify_system_event ["c1"] (connect (connect ⟨[], []⟩ "c1") "c2") =
      (⟨["c2"], [("c2", [])]⟩, [], some PyErr.runtimeError) ∧
    notify_system_error ["c1"] (connect (connect ⟨[], []⟩ "c1") "c2") =
      (⟨["c2"], [("c2", [])]⟩, [], some PyErr.runtimeError) ∧
    notify_system_event [] (connect (connect ⟨[], []⟩ "c1") "c2") =
      (⟨["c1", "c2"], [("c1", []), ("c2", [])]⟩, ["c1", "c2"], Option.none) := by
  refine ⟨rfl, rfl, rfl⟩

/-! ### DataScheduler exponential backoff (claim C10) -/

/-- `config['dws_polling_interval']` (seconds between successful cycles). -/
def dws_polling_interval : Nat := 1800

/-- The backoff computed by `_dws_polling_loop` after the error counter has
reached `consecutiveErrors`: `min(300 * (2 ** (consecutive_errors - 1)),
3600)`. -/
def dwsBackoffDelay (consecutiveErrors : Nat) : Nat :=
  min (300 * 2 ^ (consecutiveErrors - 1)) 3600

/-- The per-source loop health state (`error_counts[source]`,
`health_status[f"{source}_status"]`). -/
structure LoopState where
  errors : Nat
  status : String
deriving DecidableEq, Repr

/-- One iteration of `_dws_polling_loop`'s body, as a function of whether
`poll_with_change_detection` succeeded: success resets the consecutive-error
counter to zero, marks the source healthy, and sleeps the polling interval;
failure increments the counter, marks `error`, and sleeps the capped
exponential backoff before the next attempt.  Returns the new state and the
seconds slept. -/
def dwsPollStep (st : LoopState) (syncOk : Bool) : LoopState × Nat :=
  if syncOk then ({ errors := 0, status := "healthy" }, dws_polling_interval)
  else
    let e := st.errors + 1
    ({ errors := e, status := "error" }, dwsBackoffDelay e)

/-- The delays slept by `k` consecutive failing iterations. -/
def runFailures : Nat → LoopState → List Nat
  | 0, _ => []
  | k + 1, st =>
      let r := dwsPollStep st false
      r.2 :: runFailures k r.1

/-- Claim C10: five straight failures of the DWS polling loop (base delay
300 s, cap 3600 s) sleep 300, 600, 1200, 2400, 3600 seconds before the
respective retries; the computed backoff is non-decreasing in the number of
consecutive failures; and one successful sync resets the consecutive-error
counter to zero. -/
theorem dws_backoff_spec :
    runFailures 5 ⟨0, "running"⟩ = [300, 600, 1200, 2400, 3600] ∧
    (∀ k k', k ≤ k' → dwsBackoffDelay k ≤ dwsBackoffDelay k') ∧
    (∀ st : LoopState, (dwsPollStep st true).1.errors = 0) := by
  refine ⟨by rfl, ?_, fun st => rfl⟩
  intro k k' hk
  unfold dwsBackoffDelay
  exact min_le_min
    (Nat.mul_le_mul_left 300
      (Nat.pow_le_pow_right (by norm_num) (Nat.sub_le_sub_right hk 1)))
    (le_refl 3600)

/-- Claim C10, witness: the monotonicity part of the theorem applied to the
concrete pair of failure counts 2 ≤ 3 (delays 600 and 1200). -/
theorem dws_backoff_spec_witness : dwsBackoffDelay 2 ≤ dwsBackoffDelay 3 :=
  dws_backoff_spec.2.1 2 3 (by decide)

end BukaAmanzi
